import Mathlib

/-!
Verification development for the matching/ranking core of a
conversational candidate-search assistant.

Shallow embedding of:
* `src/utils/scoring_utils.py`   — dimension scoring functions,
* `src/utils/ranking_data.py`    — certificate/title level resolver,
* `src/utils/state_manager.py`   — TTL-cached per-conversation state,
* `src/handlers/query_handler.py` (`_fetch_and_send_candidates`) —
  scoring / sorting / pagination / state-commit pipeline.

Python floats are modelled as exact rationals (`ℚ`): every scoring
operation used by the code is `+ - * min max` and comparisons, so the
rational model is the intended real-number semantics of the code.
Python `None` / absent dict keys are modelled with `Option`.
-/

namespace WecomHR

/-! ## scoring_utils.py -/

/-- Parameters of `calculate_range_match_score`; each field default is the
`params.get(key, default)` default from the source. -/
structure RangeParams where
  exact_match_score : ℚ := 1
  tolerance_years : ℚ := 0
  score_decay_rate : ℚ := 1/10
  min_score : ℚ := 0
  bonus_rate_per_year : ℚ := 1/20
  max_score_factor : ℚ := 3/2

/-- `calculate_range_match_score(required_value, candidate_value, params)`.
`none` stands for Python `None` (either value missing ⇒ `min_score`).
The source also computes `max_score = base_score * max_factor` but never
uses it (the `>= req` branch is explicitly uncapped), so no cap appears. -/
def calculate_range_match_score (required_value candidate_value : Option ℚ)
    (params : RangeParams) : ℚ :=
  let base_score := params.exact_match_score
  let tolerance := params.tolerance_years
  let decay_rate := params.score_decay_rate
  let min_score := params.min_score
  let bonus_rate := params.bonus_rate_per_year
  match required_value, candidate_value with
  | some req_val, some cand_val =>
    if req_val ≤ cand_val then
      -- candidate meets or exceeds the minimum requirement: uncapped bonus
      let diff := cand_val - req_val
      base_score + diff * bonus_rate * base_score
    else
      let diff := req_val - cand_val
      if diff ≤ tolerance then
        -- below requirement but within tolerance: linear decay from base
        max min_score (base_score - diff * decay_rate * base_score)
      else
        -- outside tolerance: heavier decay (1.5 × rate) on the excess
        let score_at_tolerance_edge := base_score - tolerance * decay_rate * base_score
        let additional_decay_years := diff - tolerance
        max min_score
          (score_at_tolerance_edge - additional_decay_years * decay_rate * (3/2) * base_score)
  | _, _ => min_score

/-- Parameters of `calculate_keyword_overlap_score`.  `max_score = none`
models an absent `max_score` key, whose default is computed from the
required list inside the function. -/
structure OverlapParams where
  score_per_match : ℚ := 1
  max_score : Option ℚ := none

/-- Lower-cased deduplicated set built by
`set(str(item).lower() for item in lst if item)`; the `if item` filter
drops falsy items, i.e. empty strings. -/
def keywordSet (lst : List String) : List String :=
  ((lst.filter (fun s => s ≠ "")).map String.toLower).dedup

/-- `calculate_keyword_overlap_score(required_list, candidate_list, params)`.
`none` models Python `None`.  (The `normalized_score` block in the source
is dead code — its result is overwritten by the final
`min(score, max_score)` — and is therefore not embedded.) -/
def calculate_keyword_overlap_score (required_list candidate_list : Option (List String))
    (params : OverlapParams) : ℚ :=
  let score_per_match := params.score_per_match
  let default_max_score :=
    match required_list with
    | some l => if l ≠ [] then l.length * score_per_match else 0
    | none => 0
  let max_score := params.max_score.getD default_max_score
  match required_list with
  | none => 1
  | some [] => 1
  | some req =>
    match candidate_list with
    | none => 0
    | some [] => 0
    | some cand =>
      let req_set := keywordSet req
      let cand_set := keywordSet cand
      let matched := req_set.filter (fun s => s ∈ cand_set)
      let score := matched.length * score_per_match
      min score max_score

/-- Parameters of `calculate_exact_match_score`. -/
structure ExactParams where
  match_score : ℚ := 1
  mismatch_score : ℚ := 0
  case_sensitive : Bool := false

/-- `calculate_exact_match_score(required_value, candidate_value, params)`
(values already strings; the source only calls `str()` on them). -/
def calculate_exact_match_score (required_value candidate_value : Option String)
    (params : ExactParams) : ℚ :=
  match required_value with
  | none => params.match_score
  | some req_str =>
    match candidate_value with
    | none => params.mismatch_score
    | some cand_str =>
      let m := if params.case_sensitive then req_str = cand_str
               else req_str.toLower = cand_str.toLower
      if m then params.match_score else params.mismatch_score

/-- Parameters of `calculate_keyword_presence_score`; `max_score` defaults
to `1.0` in the source. -/
structure PresenceParams where
  score_per_match : ℚ := 1
  max_score : ℚ := 1

/-- `calculate_keyword_presence_score(required_list, candidate_list, params)`. -/
def calculate_keyword_presence_score (required_list candidate_list : Option (List String))
    (params : PresenceParams) : ℚ :=
  match required_list with
  | none => params.max_score
  | some [] => params.max_score
  | some req =>
    match candidate_list with
    | none => 0
    | some [] => 0
    | some cand =>
      let req_set := keywordSet req
      let cand_set := keywordSet cand
      let matched := req_set.filter (fun s => s ∈ cand_set)
      let score := matched.length * params.score_per_match
      min score params.max_score

/-- The keys of `SCORE_FUNCTION_MAP`. -/
def SCORE_FUNCTION_NAMES : List String :=
  ["range_match", "keyword_overlap", "exact_match", "keyword_presence"]

/-- `logic` sub-dictionary of a dimension configuration.  `type` is
`Option` because `logic_config.get('type')` may be absent. -/
structure LogicConfig where
  type : Option String := none

/-- One entry of `scoring_rules.dimensions`.  `enabled` defaults to
`False` (`dimension_config.get('enabled', False)`); `weight` defaults
to `0` (`dimension_config.get('weight', 0)`). -/
structure DimensionConfig where
  enabled : Bool := false
  logic : Option LogicConfig := none
  weight : ℚ := 0

/-- `calculate_score_for_dimension(dimension_config, query_criteria,
candidate_data)`.  The call
`score_func(required_value, candidate_value, params)` — a dynamically
typed Python call that may raise — is abstracted by its outcome
`invoke : Except String ℚ` (`.error` = the call raised); the wrapper's
control flow (enabled gate, logic gate, `SCORE_FUNCTION_MAP` dispatch,
`try/except` returning `0.0`, multiplication by `weight`) is embedded
directly from the source. -/
def calculate_score_for_dimension (dimension_config : DimensionConfig)
    (invoke : Except String ℚ) : ℚ :=
  if dimension_config.enabled = false then 0
  else
    match dimension_config.logic with
    | none => 0
    | some logic_config =>
      match logic_config.type with
      | none => 0
      | some logic_type =>
        if logic_type ∈ SCORE_FUNCTION_NAMES then
          match invoke with
          | .ok raw_score => raw_score * dimension_config.weight
          | .error _ => 0
        else 0

/-! ## ranking_data.py -/

/-- `CERTIFICATE_RANKS` — the specific rank tables, in source order; for
each profession only the `values` dictionary (variant → ordinal), which is
the only part `get_matching_levels` consults (the `levels` lists are not
read by it).  Entries appear in Python dict insertion order. -/
def CERTIFICATE_RANKS : List (String × List (String × Nat)) :=
  [("建筑师",
      [("助理建筑师", 1), ("中级建筑师", 2), ("高级建筑师", 3), ("教授级高级建筑师", 4)]),
   ("注册建造师",
      [("一级注册建造师", 1), ("一级建造师", 1), ("二级注册建造师", 2), ("二级建造师", 2)]),
   ("工程师",
      [("助理工程师", 1), ("工程师", 2), ("中级工程师", 2), ("高级工程师", 3),
       ("教授级高级工程师", 4)])]

/-- The two generic ordering systems of `LEVEL_INFO`. -/
inductive LevelSystem where
  | chinese
  | numeric
deriving DecidableEq

def CHINESE_LEVELS : List String := ["助理", "中级", "高级"]

def NUMERIC_LEVELS : List String := ["一级", "二级", "三级"]

/-- `LEVEL_INFO` — keyword → (ordering system, index), as built by the two
loops plus the `初级` alias in the source. -/
def LEVEL_INFO : List (String × LevelSystem × Nat) :=
  [("助理", .chinese, 0), ("中级", .chinese, 1), ("高级", .chinese, 2),
   ("初级", .chinese, 0),
   ("一级", .numeric, 0), ("二级", .numeric, 1), ("三级", .numeric, 2)]

/-- The `for category, data in CERTIFICATE_RANKS.items()` loop head of
`get_matching_levels`: the `values` dict of the first category containing
`full_cert_name`. -/
def findSpecificValues (full_cert_name : String) : Option (List (String × Nat)) :=
  (CERTIFICATE_RANKS.find? (fun cd => (cd.2.lookup full_cert_name).isSome)).map Prod.snd

def registrable_professions : List String := ["建筑师", "建造师", "工程师"]

def generic_source_list : LevelSystem → List String
  | .chinese => CHINESE_LEVELS
  | .numeric => NUMERIC_LEVELS

/-- `target_levels` of the generic branch: indices selected by the modifier
(`ge` ⇒ `range(idx, len)`, `gt` ⇒ `range(idx+1, len)`, anything else ⇒
`[idx]`), guarded by `0 <= i < len(source_list)`, mapped into the source
list. -/
def generic_target_levels (system : LevelSystem) (current_index : Nat)
    (modifier : Option String) : List String :=
  let source_list := generic_source_list system
  let target_indices : List Nat :=
    if modifier = some "ge" then (List.range source_list.length).drop current_index
    else if modifier = some "gt" then (List.range source_list.length).drop (current_index + 1)
    else [current_index]
  (target_indices.filter (fun i => i < source_list.length)).filterMap source_list.get?

/-- `get_matching_levels(base_name, level_keyword, modifier)`.  Python's
`list(set(xs))` is modelled as `xs.dedup` (same membership; the set's
iteration order is unspecified in Python, and all claims are
membership-level). -/
def get_matching_levels (base_name : String) (level_keyword : Option String)
    (modifier : Option String) : List String :=
  let full_cert_name := (level_keyword.getD "") ++ base_name
  -- 1. specific rules (CERTIFICATE_RANKS) take precedence
  match findSpecificValues full_cert_name with
  | some category_values =>
    let target_value := (category_values.lookup full_cert_name).getD 0
    let matching_levels_names :=
      if modifier = some "ge" then
        (category_values.filter (fun nv => target_value ≤ nv.2)).map Prod.fst
      else if modifier = some "gt" then
        (category_values.filter (fun nv => target_value < nv.2)).map Prod.fst
      else
        (category_values.filter (fun nv => nv.2 = target_value)).map Prod.fst
    if matching_levels_names ≠ [] then matching_levels_names.dedup
    else [full_cert_name]
  | none =>
    -- 2. generic rules
    match level_keyword with
    | some kw =>
      match LEVEL_INFO.lookup kw with
      | some info =>
        let target_levels := generic_target_levels info.1 info.2 modifier
        if target_levels ≠ [] then
          let generated_names := target_levels.map (fun level => level ++ base_name)
          let generated_names :=
            if base_name ∈ registrable_professions then
              generated_names
                ++ target_levels.map (fun level => level ++ "注册" ++ base_name)
                ++ ["注册" ++ base_name]
            else generated_names
          generated_names.dedup
        else [full_cert_name]
      | none => [full_cert_name]
    | none =>
      -- 3. no rule applies: return the original name
      [full_cert_name]

/-- The `values` table of the `工程师` specific rank category (ordinals of
the engineer title variants). -/
def engineer_rank_values : List (String × Nat) :=
  (CERTIFICATE_RANKS.lookup "工程师").getD []

/-! ## state_manager.py

The per-user dictionary cached by `StateManager`.  The payload types are
parameters: `ρ` the element type of `last_results`, `κ` the type of
`query_criteria`, `π` the type of `parsed_query_data` (in Python these
are dicts whose contents the state manager never inspects).  A field
value `none` covers both "key absent" and "key stored as `None`" — the
two are indistinguishable through every `dict.get` read the source
performs. -/

def STATE_IDLE : String := "idle"

def STATE_WAITING_SELECTION : String := "waiting_selection"

def STATE_CONTACT_CANDIDATE_DETAILS_FLOW : String := "contact_candidate_details_flow"

structure UserData (ρ κ π : Type) where
  state : Option String := none
  last_results : Option (List ρ) := none
  query_criteria : Option κ := none
  parsed_query_data : Option π := none
  query_offset : Option Int := none
  has_more : Option Bool := none

/-- Timer values of the TTL cache (a monotone clock, modelled in ℕ). -/
abbrev Time := Nat

structure CacheEntry (ρ κ π : Type) where
  data : UserData ρ κ π
  expires : Time

/-- The contents of the `TTLCache` keyed by conversation key.  (The cache's
`maxsize`/LRU eviction is not modelled; no claim concerns capacity.) -/
def StateStore (ρ κ π : Type) := String → Option (CacheEntry ρ κ π)

/-- Modelled from the spec: the TTL cache itself is the external
`cachetools.TTLCache` library, not code of this repository.  Per the spec
("A ConversationState entry inserted at time t with TTL T is unreadable
(phase reports IDLE, no cached data) at time ≥ t+T"), an entry is readable
iff `now < expires`; reading an expired entry behaves exactly like a miss. -/
def ttlcache_get {ρ κ π : Type} (s : StateStore ρ κ π) (now : Time)
    (user_id : String) : Option (UserData ρ κ π) :=
  match s user_id with
  | some e => if now < e.expires then some e.data else none
  | none => none

/-- Modelled from the spec: `TTLCache.__setitem__` (external library)
stores the value and (re)sets the entry's expiry clock to `now + ttl`
("writing any field refreshes the entry's expiry clock"). -/
def ttlcache_set {ρ κ π : Type} (s : StateStore ρ κ π) (ttl : Nat) (now : Time)
    (user_id : String) (d : UserData ρ κ π) : StateStore ρ κ π :=
  fun k => if k = user_id then some ⟨d, now + ttl⟩ else s k

/-- `StateManager._get_user_data` (a locked `TTLCache.get`). -/
def _get_user_data {ρ κ π : Type} (s : StateStore ρ κ π) (now : Time)
    (user_id : String) : Option (UserData ρ κ π) :=
  ttlcache_get s now user_id

/-- `StateManager.get_state`: current state, `IDLE` on miss/expiry. -/
def get_state {ρ κ π : Type} (s : StateStore ρ κ π) (now : Time)
    (user_id : String) : String :=
  ((_get_user_data s now user_id).bind (·.state)).getD STATE_IDLE

/-- `StateManager.get_last_results`. -/
def get_last_results {ρ κ π : Type} (s : StateStore ρ κ π) (now : Time)
    (user_id : String) : Option (List ρ) :=
  (_get_user_data s now user_id).bind (·.last_results)

/-- `StateManager.get_query_criteria`. -/
def get_query_criteria {ρ κ π : Type} (s : StateStore ρ κ π) (now : Time)
    (user_id : String) : Option κ :=
  (_get_user_data s now user_id).bind (·.query_criteria)

/-- `StateManager.get_parsed_query_data`. -/
def get_parsed_query_data {ρ κ π : Type} (s : StateStore ρ κ π) (now : Time)
    (user_id : String) : Option π :=
  (_get_user_data s now user_id).bind (·.parsed_query_data)

/-- `StateManager.get_query_offset`: next-page offset, `0` on miss/expiry. -/
def get_query_offset {ρ κ π : Type} (s : StateStore ρ κ π) (now : Time)
    (user_id : String) : Int :=
  ((_get_user_data s now user_id).bind (·.query_offset)).getD 0

/-- `StateManager.get_has_more`: `False` on miss/expiry. -/
def get_has_more {ρ κ π : Type} (s : StateStore ρ κ π) (now : Time)
    (user_id : String) : Bool :=
  ((_get_user_data s now user_id).bind (·.has_more)).getD false

/-- `StateManager.clear_state`. -/
def clear_state {ρ κ π : Type} (s : StateStore ρ κ π) (user_id : String) :
    StateStore ρ κ π :=
  fun k => if k = user_id then none else s k

/-- The field-merge performed inside
`StateManager.update_state_and_cache_results` on the (possibly fresh)
`user_data` dict: unconditional writes of `state` / `last_results` /
`query_criteria`, preservation of `parsed_query_data` when the argument is
`None`, the offset-reset rule, and the `has_more` default
(`results is not None and len(results) > 0`). -/
def merged_user_data {ρ κ π : Type} (user_data : UserData ρ κ π) (state : String)
    (results : Option (List ρ)) (query_criteria : Option κ)
    (parsed_query_data : Option π) (current_offset : Option Int)
    (has_more : Option Bool) : UserData ρ κ π :=
  let existing_parsed_data := user_data.parsed_query_data
  let d := { user_data with
              state := some state
              last_results := results
              query_criteria := query_criteria }
  let d := { d with parsed_query_data :=
              if parsed_query_data.isSome then parsed_query_data
              else existing_parsed_data }
  let d :=
    match current_offset with
    | some off => { d with query_offset := some off }
    | none =>
      if state = STATE_IDLE ∨ results.isNone then { d with query_offset := some 0 }
      else d
  match has_more with
  | some hm => { d with has_more := some hm }
  | none =>
    { d with has_more := some (match results with
                               | some l => !l.isEmpty
                               | none => false) }

/-- `StateManager.update_state_and_cache_results`: read the live entry (or
start from an empty dict), merge the new fields, store back — which
refreshes the TTL clock. -/
def update_state_and_cache_results {ρ κ π : Type} (s : StateStore ρ κ π)
    (ttl : Nat) (now : Time) (user_id : String) (state : String)
    (results : Option (List ρ)) (query_criteria : Option κ)
    (parsed_query_data : Option π) (current_offset : Option Int)
    (has_more : Option Bool) : StateStore ρ κ π :=
  let user_data := (ttlcache_get s now user_id).getD {}
  ttlcache_set s ttl now user_id
    (merged_user_data user_data state results query_criteria parsed_query_data
      current_offset has_more)

/-! ## query_handler.py — `_fetch_and_send_candidates`

Only the pure ranking/pagination/state-commit core is embedded: the
database fetch, LLM summary and the fire-and-forget message sends are
external collaborators.  `pool` is the list returned by
`db_interface.find_candidates` (the bounded initial pool), `score` the
total score each candidate receives from the per-dimension loop, and
`scoring_config` the result of `get_scoring_rules()` (abstract payload:
only its presence is consulted here). -/

/-- `display_limit = 5` — fixed page size in the source. -/
def display_limit : Nat := 5

/-- `perform_scoring = scoring_config is not None`. -/
def perform_scoring {σ : Type} (scoring_config : Option σ) : Bool :=
  scoring_config.isSome

/-- Scoring/sorting step: when scoring is enabled and the pool is
non-empty, Python's `sorted(pool, key=score, reverse=True)` — a stable
descending sort (ties keep pool order); otherwise the pool is passed
through unchanged. -/
def scored_and_sorted_candidates {α : Type} (performScoring : Bool)
    (score : α → ℚ) (pool : List α) : List α :=
  if performScoring && !pool.isEmpty then
    pool.mergeSort (fun a b => decide (score b ≤ score a))
  else pool

/-- The three values computed from the scored/sorted list:
`candidates_to_display = scored[offset : offset+display_limit]`,
`next_offset = end_index = offset + display_limit`,
`has_more = next_offset < len(scored)`. -/
structure PageOutcome (α : Type) where
  candidates_to_display : List α
  next_offset : Nat
  has_more : Bool

def paginate_scored {α : Type} (scored : List α) (offset : Nat) : PageOutcome α :=
  let start_index := offset
  let end_index := offset + display_limit
  { candidates_to_display := (scored.drop start_index).take display_limit
    next_offset := end_index
    has_more := decide (end_index < scored.length) }

/-- Outcome of a call: a page was sent and committed; no candidate at
offset 0 (state cleared); or no more candidates for a later page. -/
inductive FetchResult (α : Type) where
  | sent (page : List α) (next_offset : Nat) (has_more : Bool)
  | no_candidates
  | no_more

/-- Pagination + send/commit tail of `_fetch_and_send_candidates`
(lines after scoring): on a non-empty page, commit
`WAITING_SELECTION`, the page, both criteria, `next_offset` and
`has_more` through `update_state_and_cache_results`; on an empty page
clear state if this was the first page, else leave the store alone. -/
def send_and_commit {α κ π : Type} (ranked : List α) (offset : Nat)
    (s : StateStore α κ π) (ttl : Nat) (now : Time) (key : String)
    (query_criteria : κ) (parsed_query_data : π) :
    FetchResult α × StateStore α κ π :=
  let out := paginate_scored ranked offset
  if !out.candidates_to_display.isEmpty then
    (.sent out.candidates_to_display out.next_offset out.has_more,
     update_state_and_cache_results s ttl now key STATE_WAITING_SELECTION
       (some out.candidates_to_display) (some query_criteria)
       (some parsed_query_data) (some (out.next_offset : Int))
       (some out.has_more))
  else if offset = 0 then (.no_candidates, clear_state s key)
  else (.no_more, s)

/-- `_fetch_and_send_candidates` core: score-and-sort (or pass through),
then paginate and commit. -/
def fetch_and_send_candidates {σ α κ π : Type} (scoring_config : Option σ)
    (score : α → ℚ) (pool : List α) (offset : Nat) (s : StateStore α κ π)
    (ttl : Nat) (now : Time) (key : String) (query_criteria : κ)
    (parsed_query_data : π) : FetchResult α × StateStore α κ π :=
  send_and_commit
    (scored_and_sorted_candidates (perform_scoring scoring_config) score pool)
    offset s ttl now key query_criteria parsed_query_data

/-- An empty store (no conversation has any state). -/
def empty_state_store : StateStore Nat Nat Nat := fun _ => none

/-- A one-entry store used to instantiate the state-manager theorems:
conversation `"u1"`, waiting for selection, with parsed query data `42`
and an entry expiring at time `100`. -/
def sample_store : StateStore Nat Nat Nat :=
  fun k =>
    if k = "u1" then
      some ⟨{ state := some STATE_WAITING_SELECTION, parsed_query_data := some 42,
              query_offset := some 5, has_more := some true }, 100⟩
    else none

/-! ## Theorems -/

/-- C3: for `calculate_range_match_score` with both values present:
equality gives exactly the base score; above the requirement the score is
strictly increasing in the margin (no cap, given a positive bonus rate);
below the requirement the shortfall decays linearly at rate
`decay_rate · base` within tolerance, and the excess beyond tolerance
decays at `1.5 ×` that rate — strictly faster when the rate is positive —
with the result floored at `min_score`. -/
theorem c3_range_match_behavior (p : RangeParams) (req : ℚ) :
    (calculate_range_match_score (some req) (some req) p = p.exact_match_score)
    ∧ (0 < p.bonus_rate_per_year * p.exact_match_score →
        ∀ c₁ c₂ : ℚ, req ≤ c₁ → c₁ < c₂ →
          calculate_range_match_score (some req) (some c₁) p
            < calculate_range_match_score (some req) (some c₂) p)
    ∧ (∀ cand : ℚ, cand < req → req - cand ≤ p.tolerance_years →
        calculate_range_match_score (some req) (some cand) p
          = max p.min_score
              (p.exact_match_score
                - (req - cand) * (p.score_decay_rate * p.exact_match_score)))
    ∧ (∀ cand : ℚ, cand < req → p.tolerance_years < req - cand →
        calculate_range_match_score (some req) (some cand) p
          = max p.min_score
              (p.exact_match_score
                - p.tolerance_years * (p.score_decay_rate * p.exact_match_score)
                - (req - cand - p.tolerance_years)
                    * ((3/2) * (p.score_decay_rate * p.exact_match_score))))
    ∧ (0 < p.score_decay_rate * p.exact_match_score →
        p.score_decay_rate * p.exact_match_score
          < (3/2) * (p.score_decay_rate * p.exact_match_score))
    ∧ (∀ cand : ℚ, cand < req →
        p.min_score ≤ calculate_range_match_score (some req) (some cand) p) := by
  refine ⟨?_, ?_, ?_, ?_, ?_, ?_⟩
  · simp [calculate_range_match_score]
  · intro hpos c₁ c₂ h₁ h₂
    have h₁' : req ≤ c₂ := h₁.trans h₂.le
    simp only [calculate_range_match_score, if_pos h₁, if_pos h₁']
    have := mul_lt_mul_of_pos_right (sub_lt_sub_right h₂ req) hpos
    nlinarith
  · intro cand hlt htol
    have hnot : ¬ req ≤ cand := not_le.mpr hlt
    simp only [calculate_range_match_score, if_neg hnot, if_pos htol]
    ring_nf
  · intro cand hlt htol
    have hnot : ¬ req ≤ cand := not_le.mpr hlt
    have hnot2 : ¬ req - cand ≤ p.tolerance_years := not_le.mpr htol
    simp only [calculate_range_match_score, if_neg hnot, if_neg hnot2]
    ring_nf
  · intro hpos
    nlinarith
  · intro cand hlt
    have hnot : ¬ req ≤ cand := not_le.mpr hlt
    simp only [calculate_range_match_score, if_neg hnot]
    split <;> exact le_max_left _ _

/-- C3 witness: at the default parameters and `required = 5`, the score at
`candidate = 5` is the base `1`, is strictly larger at `candidate = 7`
than at `candidate = 6`, follows the stated beyond-tolerance formula at
`candidate = 2`, and the two decay rates compare strictly. -/
theorem c3_range_match_witness :
    calculate_range_match_score (some 5) (some 5) {} = (1 : ℚ)
    ∧ calculate_range_match_score (some 5) (some 6) {}
        < calculate_range_match_score (some 5) (some 7) {}
    ∧ calculate_range_match_score (some 5) (some 2) {}
        = max (0 : ℚ) (1 - 0 * (1/10 * 1) - (5 - 2 - 0) * ((3/2) * (1/10 * 1)))
    ∧ (1/10 : ℚ) * 1 < (3/2) * (1/10 * 1)
    ∧ (0 : ℚ) ≤ calculate_range_match_score (some 5) (some 2) {} := by
  refine ⟨(c3_range_match_behavior {} 5).1,
    (c3_range_match_behavior {} 5).2.1 (by norm_num) 6 7 (by norm_num) (by norm_num),
    ?_, (c3_range_match_behavior {} 5).2.2.2.2.1 (by norm_num),
    (c3_range_match_behavior {} 5).2.2.2.2.2 2 (by norm_num)⟩
  have h := (c3_range_match_behavior {} 5).2.2.2.1 2 (by norm_num) (by norm_num)
  simpa using h

/-- C4 counterexample: with an explicitly configured maximum score of `2`,
`calculate_keyword_overlap_score` on an empty required list returns the
constant `1.0`, not the dimension's configured maximum score. -/
theorem c4_counterexample :
    calculate_keyword_overlap_score (some []) (some ["java"])
        { score_per_match := 1, max_score := some 2 } = 1
    ∧ calculate_keyword_overlap_score (some []) (some ["java"])
        { score_per_match := 1, max_score := some 2 } ≠ 2 := by
  constructor <;> norm_num [calculate_keyword_overlap_score]

/-- C4 (amended): with an empty or absent required list,
`calculate_keyword_overlap_score` returns the constant full score `1.0`
(regardless of any configured `max_score`), and
`calculate_keyword_presence_score` returns the configured `max_score`
(default `1.0`) — in both cases regardless of candidate content. -/
theorem c4_empty_required_full_score (candidate_list : Option (List String))
    (po : OverlapParams) (pp : PresenceParams) :
    calculate_keyword_overlap_score none candidate_list po = 1
    ∧ calculate_keyword_overlap_score (some []) candidate_list po = 1
    ∧ calculate_keyword_presence_score none candidate_list pp = pp.max_score
    ∧ calculate_keyword_presence_score (some []) candidate_list pp = pp.max_score :=
  ⟨rfl, rfl, rfl, rfl⟩

/-- C5: `calculate_score_for_dimension` returns exactly `0` when the
dimension is disabled, when the configured logic type is not a key of
`SCORE_FUNCTION_MAP`, and when the underlying scoring function raises —
returning normally (it is a total function), so the per-candidate and
per-dimension scoring loops are never aborted. -/
theorem c5_dimension_guards (dc : DimensionConfig) (invoke : Except String ℚ) :
    (dc.enabled = false → calculate_score_for_dimension dc invoke = 0)
    ∧ (∀ lc, dc.logic = some lc → ∀ t, lc.type = some t →
        t ∉ SCORE_FUNCTION_NAMES → calculate_score_for_dimension dc invoke = 0)
    ∧ (∀ e, invoke = .error e → calculate_score_for_dimension dc invoke = 0) := by
  refine ⟨fun h => by simp [calculate_score_for_dimension, h], ?_, ?_⟩
  · intro lc hlc t ht hnot
    by_cases he : dc.enabled = false
    · simp [calculate_score_for_dimension, he]
    · simp [calculate_score_for_dimension, he, hlc, ht, hnot]
  · intro e hinv
    subst hinv
    by_cases he : dc.enabled = false
    · simp [calculate_score_for_dimension, he]
    · rcases hl : dc.logic with _ | lc
      · simp [calculate_score_for_dimension, he, hl]
      · rcases hty : lc.type with _ | t
        · simp [calculate_score_for_dimension, he, hl, hty]
        · by_cases hmem : t ∈ SCORE_FUNCTION_NAMES <;>
            simp [calculate_score_for_dimension, he, hl, hty, hmem]

/-- C5 witness: a disabled dimension, an unrecognized logic type
(`"fuzzy_match"`), and a raising scorer each contribute exactly `0`. -/
theorem c5_dimension_guards_witness :
    calculate_score_for_dimension
        { enabled := false, logic := some { type := some "range_match" }, weight := 10 }
        (.ok 1) = 0
    ∧ calculate_score_for_dimension
        { enabled := true, logic := some { type := some "fuzzy_match" }, weight := 10 }
        (.ok 1) = 0
    ∧ calculate_score_for_dimension
        { enabled := true, logic := some { type := some "range_match" }, weight := 10 }
        (.error "boom") = 0 :=
  ⟨(c5_dimension_guards _ _).1 rfl,
   (c5_dimension_guards _ _).2.1 _ rfl _ rfl (by decide),
   (c5_dimension_guards _ _).2.2 _ rfl⟩

/-- C6: `get_matching_levels("工程师", "中级", "ge")` contains
`"中级工程师"` (ordinal 2 in the `工程师` rank table) and the strictly
higher-ranked `"高级工程师"` (ordinal 3), and every returned variant's
ordinal in that table is `≥ 2` — no strictly lower-ranked variant. -/
theorem c6_engineer_level_ge :
    "中级工程师" ∈ get_matching_levels "工程师" (some "中级") (some "ge")
    ∧ engineer_rank_values.lookup "中级工程师" = some 2
    ∧ "高级工程师" ∈ get_matching_levels "工程师" (some "中级") (some "ge")
    ∧ engineer_rank_values.lookup "高级工程师" = some 3
    ∧ 2 < 3
    ∧ (∀ name ∈ get_matching_levels "工程师" (some "中级") (some "ge"),
        (engineer_rank_values.lookup name).all (fun v => decide (2 ≤ v)) = true) := by
  decide

/-- C6 witness: the bounded quantifier instantiated at the returned
variant `"高级工程师"`. -/
theorem c6_engineer_level_ge_witness :
    (engineer_rank_values.lookup "高级工程师").all (fun v => decide (2 ≤ v)) = true :=
  c6_engineer_level_ge.2.2.2.2.2 "高级工程师" (by decide)

/-- C7 counterexample: `工程师` is registrable, `高级` is a generic level
keyword, and modifier `eq` yields the non-empty target level list
`["高级"]`; yet because the composed name `高级工程师` is found in the
specific rank table, `get_matching_levels` returns only `["高级工程师"]`
— neither the bare `注册工程师` nor any `注册` variant. -/
theorem c7_counterexample :
    "工程师" ∈ registrable_professions
    ∧ (LEVEL_INFO.lookup "高级").isSome = true
    ∧ generic_target_levels .chinese 2 (some "eq") = ["高级"]
    ∧ get_matching_levels "工程师" (some "高级") (some "eq") = ["高级工程师"]
    ∧ "注册工程师" ∉ get_matching_levels "工程师" (some "高级") (some "eq")
    ∧ "高级注册工程师" ∉ get_matching_levels "工程师" (some "高级") (some "eq") := by
  decide

/-- C7 (amended): for every base name in the registrable-professions set
and every level keyword known to the generic ordering system, **provided
the composed `level+base` name is not found in any specific rank table**
(specific tables take precedence and produce no `注册` variants) and the
modifier yields at least one target level, `get_matching_levels` returns,
in addition to each composed `level+base` name, the registered variant
`level+注册+base` of each composed name (`注册` is inserted between level
keyword and base name), plus the bare `注册+base` form. -/
theorem c7_registered_variants (base_name kw : String) (modifier : Option String)
    (sys : LevelSystem) (idx : Nat)
    (hreg : base_name ∈ registrable_professions)
    (hkw : LEVEL_INFO.lookup kw = some (sys, idx))
    (hspec : findSpecificValues (kw ++ base_name) = none)
    (hne : generic_target_levels sys idx modifier ≠ []) :
    (∀ level ∈ generic_target_levels sys idx modifier,
        (level ++ base_name) ∈ get_matching_levels base_name (some kw) modifier
        ∧ (level ++ "注册" ++ base_name)
            ∈ get_matching_levels base_name (some kw) modifier)
    ∧ ("注册" ++ base_name) ∈ get_matching_levels base_name (some kw) modifier := by
  have hresult : get_matching_levels base_name (some kw) modifier
      = ((generic_target_levels sys idx modifier).map (fun level => level ++ base_name)
          ++ (generic_target_levels sys idx modifier).map
              (fun level => level ++ "注册" ++ base_name)
          ++ ["注册" ++ base_name]).dedup := by
    simp only [get_matching_levels, Option.getD_some]
    rw [hspec, hkw]
    simp [hne, hreg]
  rw [hresult]
  constructor
  · intro level hlevel
    constructor
    · rw [List.mem_dedup]
      exact List.mem_append_left _ (List.mem_append_left _ (List.mem_map_of_mem _ hlevel))
    · rw [List.mem_dedup]
      exact List.mem_append_left _ (List.mem_append_right _ (List.mem_map_of_mem _ hlevel))
  · rw [List.mem_dedup]
    exact List.mem_append_right _ (List.mem_cons_self _ _)

/-- C7 witness: `三级建造师` misses every specific table, so
`get_matching_levels("建造师", "三级", "eq")` contains the composed name,
its registered variant and the bare registered form. -/
theorem c7_registered_variants_witness :
    "三级建造师" ∈ get_matching_levels "建造师" (some "三级") (some "eq")
    ∧ "三级注册建造师" ∈ get_matching_levels "建造师" (some "三级") (some "eq")
    ∧ "注册建造师" ∈ get_matching_levels "建造师" (some "三级") (some "eq") := by
  have h := c7_registered_variants "建造师" "三级" (some "eq") .numeric 2
    (by decide) (by decide) (by decide) (by decide)
  have h3 := h.1 "三级" (by decide)
  exact ⟨h3.1, h3.2, h.2⟩

/-- Helper: the entry written by `update_state_and_cache_results` under its
own key. -/
theorem update_apply_self {ρ κ π : Type} (s : StateStore ρ κ π) (ttl : Nat)
    (now : Time) (uid state : String) (results : Option (List ρ)) (qc : Option κ)
    (pqd : Option π) (off : Option Int) (hm : Option Bool) :
    update_state_and_cache_results s ttl now uid state results qc pqd off hm uid
      = some ⟨merged_user_data ((ttlcache_get s now uid).getD {}) state results qc
                pqd off hm,
              now + ttl⟩ := by
  simp [update_state_and_cache_results, ttlcache_set]

/-- Helper: the `parsed_query_data` field after the merge. -/
theorem merged_user_data_parsed {ρ κ π : Type} (old : UserData ρ κ π)
    (state : String) (results : Option (List ρ)) (qc : Option κ) (pqd : Option π)
    (off : Option Int) (hm : Option Bool) :
    (merged_user_data old state results qc pqd off hm).parsed_query_data
      = if pqd.isSome then pqd else old.parsed_query_data := by
  simp only [merged_user_data]
  rcases off <;> rcases hm <;> split_ifs <;> rfl

/-- Helper: the `query_offset` field after the merge. -/
theorem merged_user_data_query_offset {ρ κ π : Type} (old : UserData ρ κ π)
    (state : String) (results : Option (List ρ)) (qc : Option κ) (pqd : Option π)
    (off : Option Int) (hm : Option Bool) :
    (merged_user_data old state results qc pqd off hm).query_offset
      = match off with
        | some o => some o
        | none =>
          if state = STATE_IDLE ∨ results.isNone then some 0 else old.query_offset := by
  simp only [merged_user_data]
  rcases off <;> rcases hm <;> split_ifs <;> rfl

/-- Helper: the `has_more` field after the merge. -/
theorem merged_user_data_has_more {ρ κ π : Type} (old : UserData ρ κ π)
    (state : String) (results : Option (List ρ)) (qc : Option κ) (pqd : Option π)
    (off : Option Int) (hm : Option Bool) :
    (merged_user_data old state results qc pqd off hm).has_more
      = match hm with
        | some b => some b
        | none => some (match results with
                        | some l => !l.isEmpty
                        | none => false) := by
  simp only [merged_user_data]
  rcases off <;> rcases hm <;> split_ifs <;> rfl

/-- Helper: every getter degrades to its no-data default when
`_get_user_data` reports a miss. -/
theorem getters_of_no_data {ρ κ π : Type} (s : StateStore ρ κ π) (now : Time)
    (uid : String) (h : _get_user_data s now uid = none) :
    get_state s now uid = STATE_IDLE
    ∧ get_last_results s now uid = none
    ∧ get_query_criteria s now uid = none
    ∧ get_parsed_query_data s now uid = none
    ∧ get_query_offset s now uid = 0
    ∧ get_has_more s now uid = false := by
  simp [get_state, get_last_results, get_query_criteria, get_parsed_query_data,
    get_query_offset, get_has_more, h]

/-- C8: if a conversation key currently has a stored `parsed_query_data`
value, then `update_state_and_cache_results` called with the
`parsed_query_data` argument omitted (`None`) leaves the stored value
readable unchanged — it is never silently dropped. -/
theorem c8_parsed_query_data_preserved {ρ κ π : Type} (s : StateStore ρ κ π)
    (ttl : Nat) (now : Time) (uid state : String) (results : Option (List ρ))
    (qc : Option κ) (off : Option Int) (hm : Option Bool) (p : π)
    (httl : 0 < ttl)
    (hprev : get_parsed_query_data s now uid = some p) :
    get_parsed_query_data
      (update_state_and_cache_results s ttl now uid state results qc none off hm)
      now uid = some p := by
  have halive : now < now + ttl := Nat.lt_add_of_pos_right httl
  have hold : ((ttlcache_get s now uid).getD {}).parsed_query_data = some p := by
    unfold get_parsed_query_data _get_user_data at hprev
    rcases h : ttlcache_get s now uid with _ | d
    · rw [h] at hprev; simp at hprev
    · rw [h] at hprev; simpa using hprev
  unfold get_parsed_query_data _get_user_data ttlcache_get
  rw [update_apply_self]
  simp [halive, merged_user_data_parsed, hold]

/-- C8 witness: a commit for `"u1"` without `parsed_query_data` keeps the
previously stored value `42` readable. -/
theorem c8_parsed_query_data_preserved_witness :
    get_parsed_query_data
      (update_state_and_cache_results sample_store 180 50 "u1"
        STATE_WAITING_SELECTION (some [1, 2]) (some 9) none (some 10) (some true))
      50 "u1" = some 42 :=
  c8_parsed_query_data_preserved sample_store 180 50 "u1" STATE_WAITING_SELECTION
    (some [1, 2]) (some 9) (some 10) (some true) 42 (by decide) (by decide)

/-- C9: reading an absent key yields `IDLE` and every no-data default; and
an entry written at time `t` with TTL `T` read at any time `≥ t + T`
(with no intervening write) yields exactly the same defaults — expiry is
indistinguishable from absence. -/
theorem c9_miss_and_expiry_idle {ρ κ π : Type} (s : StateStore ρ κ π)
    (now : Time) (uid : String) :
    (s uid = none →
      get_state s now uid = STATE_IDLE
      ∧ get_last_results s now uid = none
      ∧ get_query_criteria s now uid = none
      ∧ get_parsed_query_data s now uid = none
      ∧ get_query_offset s now uid = 0
      ∧ get_has_more s now uid = false)
    ∧ (∀ (ttl : Nat) (t : Time) (state : String) (results : Option (List ρ))
        (qc : Option κ) (pqd : Option π) (off : Option Int) (hm : Option Bool)
        (t' : Time), t + ttl ≤ t' →
        get_state (update_state_and_cache_results s ttl t uid state results qc pqd
            off hm) t' uid = STATE_IDLE
        ∧ get_last_results (update_state_and_cache_results s ttl t uid state results
            qc pqd off hm) t' uid = none
        ∧ get_query_criteria (update_state_and_cache_results s ttl t uid state
            results qc pqd off hm) t' uid = none
        ∧ get_parsed_query_data (update_state_and_cache_results s ttl t uid state
            results qc pqd off hm) t' uid = none
        ∧ get_query_offset (update_state_and_cache_results s ttl t uid state results
            qc pqd off hm) t' uid = 0
        ∧ get_has_more (update_state_and_cache_results s ttl t uid state results qc
            pqd off hm) t' uid = false) := by
  constructor
  · intro h
    refine getters_of_no_data s now uid ?_
    unfold _get_user_data ttlcache_get
    rw [h]
  · intro ttl t state results qc pqd off hm t' hle
    have hdead : ¬ (t' < t + ttl) := not_lt.mpr hle
    refine getters_of_no_data _ t' uid ?_
    unfold _get_user_data ttlcache_get
    rw [update_apply_self]
    simp [hdead]

/-- C9 witness: an absent key reads `IDLE`, and an entry written at `t=10`
with `TTL=180` reads as `IDLE` with all defaults at `t'=190 = t+TTL`. -/
theorem c9_miss_and_expiry_idle_witness :
    get_state empty_state_store 0 "u9" = STATE_IDLE
    ∧ get_state (update_state_and_cache_results empty_state_store 180 10 "u9"
        STATE_WAITING_SELECTION (some [1]) (some 2) (some 3) (some 5) (some true))
        190 "u9" = STATE_IDLE
    ∧ get_query_offset (update_state_and_cache_results empty_state_store 180 10 "u9"
        STATE_WAITING_SELECTION (some [1]) (some 2) (some 3) (some 5) (some true))
        190 "u9" = 0
    ∧ get_has_more (update_state_and_cache_results empty_state_store 180 10 "u9"
        STATE_WAITING_SELECTION (some [1]) (some 2) (some 3) (some 5) (some true))
        190 "u9" = false :=
  ⟨((c9_miss_and_expiry_idle empty_state_store 0 "u9").1 rfl).1,
   ((c9_miss_and_expiry_idle empty_state_store 0 "u9").2 180 10
      STATE_WAITING_SELECTION (some [1]) (some 2) (some 3) (some 5) (some true) 190
      (by decide)).1,
   ((c9_miss_and_expiry_idle empty_state_store 0 "u9").2 180 10
      STATE_WAITING_SELECTION (some [1]) (some 2) (some 3) (some 5) (some true) 190
      (by decide)).2.2.2.2.1,
   ((c9_miss_and_expiry_idle empty_state_store 0 "u9").2 180 10
      STATE_WAITING_SELECTION (some [1]) (some 2) (some 3) (some 5) (some true) 190
      (by decide)).2.2.2.2.2⟩

/-- C10: with `current_offset` omitted, the stored `query_offset` is reset
to `0` exactly when the new state is `IDLE` or `results` is `None`, and
otherwise keeps whatever the (live) previous entry stored; with `has_more`
omitted, the stored `has_more` is always set, and equals `true` exactly
when `results` is a non-empty list. -/
theorem c10_omitted_offset_and_has_more {ρ κ π : Type} (s : StateStore ρ κ π)
    (ttl : Nat) (now : Time) (uid state : String) (results : Option (List ρ))
    (qc : Option κ) (pqd : Option π) :
    ∃ e : CacheEntry ρ κ π,
      update_state_and_cache_results s ttl now uid state results qc pqd none none uid
        = some e
      ∧ e.data.query_offset
          = (if state = STATE_IDLE ∨ results.isNone then some 0
             else ((ttlcache_get s now uid).getD {}).query_offset)
      ∧ (e.data.has_more = some true ↔ ∃ l, results = some l ∧ l ≠ [])
      ∧ e.data.has_more.isSome = true := by
  refine ⟨⟨merged_user_data ((ttlcache_get s now uid).getD {}) state results qc pqd
            none none, now + ttl⟩,
    update_apply_self s ttl now uid state results qc pqd none none, ?_, ?_, ?_⟩
  · rw [merged_user_data_query_offset]
  · rw [merged_user_data_has_more]
    rcases results with _ | l
    · simp
    · simp [List.isEmpty_iff]
  · rw [merged_user_data_has_more]
    simp

/-- C10 witness: the theorem instantiated at `sample_store` with a
non-idle state and a non-empty result page. -/
theorem c10_omitted_offset_and_has_more_witness :
    ∃ e : CacheEntry Nat Nat Nat,
      update_state_and_cache_results sample_store 180 50 "u1"
          STATE_WAITING_SELECTION (some [1]) (some 9) none none none "u1" = some e
      ∧ e.data.query_offset
          = (if STATE_WAITING_SELECTION = STATE_IDLE
                ∨ (some [1] : Option (List Nat)).isNone then some 0
             else ((ttlcache_get sample_store 50 "u1").getD {}).query_offset)
      ∧ (e.data.has_more = some true
          ↔ ∃ l, (some [1] : Option (List Nat)) = some l ∧ l ≠ [])
      ∧ e.data.has_more.isSome = true :=
  c10_omitted_offset_and_has_more sample_store 180 50 "u1" STATE_WAITING_SELECTION
    (some [1]) (some 9) none

/-- Helper: the `last_results` field after the merge is always the
`results` argument. -/
theorem merged_user_data_last_results {ρ κ π : Type} (old : UserData ρ κ π)
    (state : String) (results : Option (List ρ)) (qc : Option κ) (pqd : Option π)
    (off : Option Int) (hm : Option Bool) :
    (merged_user_data old state results qc pqd off hm).last_results = results := by
  simp only [merged_user_data]
  rcases off <;> rcases hm <;> split_ifs <;> rfl

/-- C1 counterexample: on a scored pool of 12 candidates, the third page
(offset 10) displays the last two candidates with `hasMore = false` as
claimed, but the computed — and committed — `next_offset` is
`offset + display_limit = 15`, not `12`. -/
theorem c1_counterexample :
    (paginate_scored (List.range 12) 10).candidates_to_display = [10, 11]
    ∧ (paginate_scored (List.range 12) 10).has_more = false
    ∧ (paginate_scored (List.range 12) 10).next_offset = 15
    ∧ (paginate_scored (List.range 12) 10).next_offset ≠ 12
    ∧ get_query_offset
        ((send_and_commit (List.range 12) 10 empty_state_store 180 0 "u" 0 0).2)
        0 "u" = 15 := by
  refine ⟨by decide, by decide, rfl, by decide, by decide⟩

/-- C1 (amended): for every scored-and-sorted pool and every offset, the
pipeline displays the slice `[offset, offset+display_limit)` of the pool
and, whenever that page is non-empty, commits
`has_more = (offset + display_limit < pool size)` and
`next_offset = offset + display_limit` to the state store; for a pool of
12 scored candidates the three successive pages are `pool[0:5]`
(`next_offset = 5`, `has_more = true`), `pool[5:10]` (`next_offset = 10`,
`has_more = true`) and `pool[10:12]` — with `next_offset = 15`
(= `offset + display_limit`, not `12`) and `has_more = false`. -/
theorem c1_pagination {α κ π : Type} (scored_pool : List α) (offset : Nat)
    (s : StateStore α κ π) (ttl : Nat) (now : Time) (key : String) (qc : κ)
    (pqd : π) (httl : 0 < ttl) :
    ((paginate_scored scored_pool offset).candidates_to_display
        = (scored_pool.drop offset).take display_limit
      ∧ (paginate_scored scored_pool offset).has_more
        = decide (offset + display_limit < scored_pool.length)
      ∧ (paginate_scored scored_pool offset).next_offset = offset + display_limit)
    ∧ ((paginate_scored scored_pool offset).candidates_to_display ≠ [] →
        get_has_more ((send_and_commit scored_pool offset s ttl now key qc pqd).2)
            now key
          = (paginate_scored scored_pool offset).has_more
        ∧ get_query_offset
            ((send_and_commit scored_pool offset s ttl now key qc pqd).2) now key
          = ((paginate_scored scored_pool offset).next_offset : Int))
    ∧ (scored_pool.length = 12 →
        (paginate_scored scored_pool 0).candidates_to_display = scored_pool.take 5
        ∧ (paginate_scored scored_pool 0).next_offset = 5
        ∧ (paginate_scored scored_pool 0).has_more = true
        ∧ (paginate_scored scored_pool 5).candidates_to_display
            = (scored_pool.drop 5).take 5
        ∧ (paginate_scored scored_pool 5).next_offset = 10
        ∧ (paginate_scored scored_pool 5).has_more = true
        ∧ (paginate_scored scored_pool 10).candidates_to_display
            = scored_pool.drop 10
        ∧ (paginate_scored scored_pool 10).next_offset = 15
        ∧ (paginate_scored scored_pool 10).has_more = false) := by
  have halive : now < now + ttl := Nat.lt_add_of_pos_right httl
  refine ⟨⟨rfl, rfl, rfl⟩, ?_, ?_⟩
  · intro hne
    have hcommit : (send_and_commit scored_pool offset s ttl now key qc pqd).2
        = update_state_and_cache_results s ttl now key STATE_WAITING_SELECTION
            (some (paginate_scored scored_pool offset).candidates_to_display)
            (some qc) (some pqd)
            (some ((paginate_scored scored_pool offset).next_offset : Int))
            (some (paginate_scored scored_pool offset).has_more) := by
      have hempty : (paginate_scored scored_pool offset).candidates_to_display.isEmpty
          = false := by
        simpa [List.isEmpty_iff] using hne
      simp [send_and_commit, hempty]
    rw [hcommit]
    constructor
    · unfold get_has_more _get_user_data ttlcache_get
      rw [update_apply_self]
      simp [halive, merged_user_data_has_more]
    · unfold get_query_offset _get_user_data ttlcache_get
      rw [update_apply_self]
      simp [halive, merged_user_data_query_offset]
  · intro h12
    have hdrop10 : (scored_pool.drop 10).length = 2 := by
      simp [h12]
    refine ⟨by simp [paginate_scored, display_limit], rfl, ?_, rfl, rfl, ?_, ?_, rfl,
      ?_⟩
    · simp [paginate_scored, h12, display_limit]
    · simp [paginate_scored, h12, display_limit]
    · have htake : (scored_pool.drop 10).take display_limit = scored_pool.drop 10 :=
        List.take_of_length_le (by rw [hdrop10]; norm_num [display_limit])
      simpa [paginate_scored] using htake
    · simp [paginate_scored, h12, display_limit]

/-- C1 witness: the theorem instantiated on the scored pool
`List.range 12` at offset 10 with a live TTL. -/
theorem c1_pagination_witness :
    ((paginate_scored (List.range 12) 10).candidates_to_display
        = ((List.range 12).drop 10).take display_limit)
    ∧ (get_has_more
        ((send_and_commit (List.range 12) 10 empty_state_store 180 0 "u" 0 0).2)
        0 "u" = (paginate_scored (List.range 12) 10).has_more)
    ∧ ((paginate_scored (List.range 12) 0).next_offset = 5) :=
  ⟨(c1_pagination (List.range 12) 10 empty_state_store 180 0 "u" 0 0
      (by decide)).1.1,
   ((c1_pagination (List.range 12) 10 empty_state_store 180 0 "u" 0 0
      (by decide)).2.1 (by decide)).1,
   ((c1_pagination (List.range 12) 10 empty_state_store 180 0 "u" 0 0
      (by decide)).2.2 (by decide)).2.1⟩

/-- C2: when the scoring rule set is absent (`get_scoring_rules()` returns
`None`), no scoring happens: the ranked list handed to pagination is the
pool in its original retrieval order, element for element; the displayed
page is a slice of that order; and the page committed to the state store
is that same slice. -/
theorem c2_no_rules_original_order {σ α κ π : Type} (scoring_config : Option σ)
    (score : α → ℚ) (pool : List α) (offset ttl : Nat) (now : Time)
    (s : StateStore α κ π) (key : String) (qc : κ) (pqd : π)
    (hcfg : scoring_config = none) (httl : 0 < ttl) :
    scored_and_sorted_candidates (perform_scoring scoring_config) score pool = pool
    ∧ (paginate_scored
        (scored_and_sorted_candidates (perform_scoring scoring_config) score pool)
        offset).candidates_to_display
      = (pool.drop offset).take display_limit
    ∧ ((pool.drop offset).take display_limit ≠ [] →
        get_last_results
          ((fetch_and_send_candidates scoring_config score pool offset s ttl now key
              qc pqd).2) now key
          = some ((pool.drop offset).take display_limit)) := by
  subst hcfg
  have halive : now < now + ttl := Nat.lt_add_of_pos_right httl
  have hranked : scored_and_sorted_candidates (perform_scoring (none : Option σ))
      score pool = pool := by
    simp [scored_and_sorted_candidates, perform_scoring]
  refine ⟨hranked, by rw [hranked]; rfl, ?_⟩
  intro hne
  have hempty : (paginate_scored pool offset).candidates_to_display.isEmpty
      = false := by
    simpa [paginate_scored, List.isEmpty_iff] using hne
  have hfetch : (fetch_and_send_candidates (none : Option σ) score pool offset s ttl
      now key qc pqd).2
      = update_state_and_cache_results s ttl now key STATE_WAITING_SELECTION
          (some (paginate_scored pool offset).candidates_to_display)
          (some qc) (some pqd)
          (some ((paginate_scored pool offset).next_offset : Int))
          (some (paginate_scored pool offset).has_more) := by
    simp [fetch_and_send_candidates, hranked, send_and_commit, hempty]
  rw [hfetch]
  unfold get_last_results _get_user_data ttlcache_get
  rw [update_apply_self]
  simp [halive, merged_user_data_last_results, paginate_scored]

/-- C2 witness: with no rule set, pool `[3, 1, 2]` is ranked, displayed and
cached exactly in retrieval order. -/
theorem c2_no_rules_original_order_witness :
    scored_and_sorted_candidates (perform_scoring (none : Option Unit))
        (fun _ => (0 : ℚ)) [3, 1, 2] = [3, 1, 2]
    ∧ get_last_results
        ((fetch_and_send_candidates (none : Option Unit) (fun _ => (0 : ℚ))
            [3, 1, 2] 0 empty_state_store 180 0 "u" 0 0).2) 0 "u"
      = some (([3, 1, 2].drop 0).take display_limit) :=
  ⟨(c2_no_rules_original_order (none : Option Unit) (fun _ => (0 : ℚ)) [3, 1, 2] 0
      180 0 empty_state_store "u" 0 0 rfl (by decide)).1,
   (c2_no_rules_original_order (none : Option Unit) (fun _ => (0 : ℚ)) [3, 1, 2] 0
      180 0 empty_state_store "u" 0 0 rfl (by decide)).2.2 (by decide)⟩

end WecomHR
